import Mathlib

/-
  Shallow embedding of src/main.go: a gin HTTP gateway that authenticates
  callers with a static bearer token and forwards four request kinds
  (publish, broadcast, subscribe, unsubscribe) to an external messaging
  provider.  The provider client is abstracted as a record of response
  functions; each handler additionally records the provider calls it makes,
  so that theorems can speak about which calls were (not) issued.
-/

namespace GoFcm

/-- Notification payload, `type Notification` (main.go lines 31-34). -/
structure Notification where
  title : String
  body : String
deriving Repr, DecidableEq

/-- Input of the publish handler, `type PublishInput` (lines 21-24);
the JSON key of the first field is `to`. -/
structure PublishInput where
  token : String
  notification : Notification
deriving Repr, DecidableEq

/-- Input of the broadcast handler, `type BroadCastInput` (lines 26-29). -/
structure BroadCastInput where
  topic : String
  notification : Notification
deriving Repr, DecidableEq

/-- Input of the subscribe and unsubscribe handlers, `type SubscribeInput`
(lines 36-39). -/
structure SubscribeInput where
  tokens : List String
  topic : String
deriving Repr, DecidableEq

/-- The provider message, `messaging.Message` as used by main.go: only the
`Notification`, `Token` and `Topic` fields are ever set; the ones a handler
does not set keep the Go zero value `""`. -/
structure Message where
  notification : Notification
  token : String := ""
  topic : String := ""
deriving Repr, DecidableEq

/-- One entry of a topic-management error list: `err.Index` and
`err.Reason` as read on lines 138-139 and 163-164. -/
structure ErrorInfo where
  index : Nat
  reason : String
deriving Repr, DecidableEq

/-- The batch response of the provider, `messaging.TopicManagementResponse`:
the fields main.go reads are `FailureCount` and `Errors`. -/
structure TopicManagementResponse where
  successCount : Nat
  failureCount : Nat
  errors : List ErrorInfo
deriving Repr, DecidableEq

/-- A call made to the provider client, recorded for instrumentation. -/
inductive ProviderCall where
  | send (m : Message)
  | subscribeToTopic (tokens : List String) (topic : String)
  | unsubscribeFromTopic (tokens : List String) (topic : String)
deriving Repr, DecidableEq

/-- The provider client (`messaging.Client`), abstracted as its three
response functions.  `Except.error e` models a transport/call error with
error text `e`; `Except.ok` models a call that returned a response. -/
structure Provider where
  send : Message → Except String String
  subscribeToTopic : List String → String → Except String TopicManagementResponse
  unsubscribeFromTopic : List String → String → Except String TopicManagementResponse

/-- Go type AppState (lines 17-19): the handle to the provider client. -/
structure AppState where
  msgClient : Provider

/-- An HTTP response: status code plus JSON object body given as a list of
string fields; `[]` stands for an empty body (`ctx.Status` with no body). -/
structure HttpResponse where
  status : Nat
  body : List (String × String)
deriving Repr, DecidableEq

/-- Status code http.StatusAccepted. -/
def StatusAccepted : Nat := 202

/-- Status code http.StatusBadGateway. -/
def StatusBadGateway : Nat := 502

/-- Status code http.StatusUnauthorized. -/
def StatusUnauthorized : Nat := 401

/-- Status code http.StatusBadRequest, written by the abort inside the gin
Bind call when the body does not decode. -/
def StatusBadRequest : Nat := 400

/-- Go strings.HasPrefix, on the character sequences of the strings. -/
def goStartsWith (s pre : String) : Bool :=
  pre.data.isPrefixOf s.data

/-- Go strings.TrimPrefix: drops the prefix when present, else returns the
string unchanged (used on line 186 with prefix `"Bearer "`). -/
def trimBearer (s : String) : String :=
  if goStartsWith s "Bearer " then ⟨s.data.drop "Bearer ".data.length⟩ else s

/-- Middleware APIKeyAuthMiddleware (lines 174-195).  `getenv` models `os.Getenv`
at the moment the request is handled (`os.Getenv` returns `""` for an
unset variable); `authHeader` is `c.GetHeader("Authorization")`, which is
`""` when the header is absent.  Returns `some resp` when the middleware
aborts with response `resp`, `none` when the request may proceed. -/
def APIKeyAuthMiddleware (getenv : String → String) (authHeader : String) :
    Option HttpResponse :=
  if authHeader = "" ∨ ¬ (goStartsWith authHeader "Bearer ") then
    some ⟨StatusUnauthorized, [("error", "Unauthorized: Missing or invalid token")]⟩
  else if trimBearer authHeader ≠ getenv "API_KEY" then
    some ⟨StatusUnauthorized, [("error", "Unauthorized: Invalid API Key")]⟩
  else
    none

/-- The message built by `publishDryRun` (lines 83-88): token target. -/
def mkPublishMessage (p : PublishInput) : Message :=
  { notification := ⟨p.notification.title, p.notification.body⟩
    token := p.token }

/-- The message built by `BroadcastMsg` (lines 106-110): topic target. -/
def mkBroadcastMessage (b : BroadCastInput) : Message :=
  { notification := ⟨b.notification.title, b.notification.body⟩
    topic := b.topic }

/-- Handler publishDryRun (lines 79-101), after JSON binding: builds the message,
invokes `state.MsgClient.Send` and translates the outcome.  Also returns the
list of provider calls the handler issued. -/
def publishDryRun (provider : Provider) (p : PublishInput) :
    HttpResponse × List ProviderCall :=
  let message := mkPublishMessage p
  match provider.send message with
  | .error err =>
      (⟨StatusBadGateway,
        [("error", "error found while publishing message: " ++ err)]⟩,
       [.send message])
  | .ok _ =>
      (⟨StatusAccepted, []⟩, [.send message])

/-- Handler BroadcastMsg (lines 103-122), after JSON binding. -/
def BroadcastMsg (provider : Provider) (b : BroadCastInput) :
    HttpResponse × List ProviderCall :=
  let message := mkBroadcastMessage b
  match provider.send message with
  | .error err =>
      (⟨StatusBadGateway,
        [("error", "error found while broadcasting message: " ++ err)]⟩,
       [.send message])
  | .ok _ =>
      (⟨StatusAccepted, []⟩, [.send message])

/-- The per-entry format `fmt.Fprintf(&sb, "Code: %d, Message: %s", err.Index,
err.Reason)` of lines 139 and 164. -/
def fmtEntry (e : ErrorInfo) : String :=
  "Code: " ++ toString e.index ++ ", Message: " ++ e.reason

/-- The `strings.Builder` loop of lines 137-140 / 162-165: the formatted
entries concatenated in order with no separator. -/
def sbString (errors : List ErrorInfo) : String :=
  errors.foldl (fun sb e => sb ++ fmtEntry e) ""

/-- Handler SubscribeToTopic (lines 124-147), after JSON binding. -/
def SubscribeToTopic (provider : Provider) (s : SubscribeInput) :
    HttpResponse × List ProviderCall :=
  match provider.subscribeToTopic s.tokens s.topic with
  | .error err =>
      (⟨StatusBadGateway,
        [("error", "error found while subscribing to topic: " ++ err)]⟩,
       [.subscribeToTopic s.tokens s.topic])
  | .ok response =>
      if response.failureCount ≠ 0 then
        (⟨StatusBadGateway,
          [("errors", "errors while subscribing to topic: " ++ sbString response.errors)]⟩,
         [.subscribeToTopic s.tokens s.topic])
      else
        (⟨StatusAccepted, []⟩, [.subscribeToTopic s.tokens s.topic])

/-- Handler UnsubscribeFromTopic (lines 149-172), after JSON binding.  Note the
partial-failure branch reuses the subscribe wording (lines 166-167). -/
def UnsubscribeFromTopic (provider : Provider) (s : SubscribeInput) :
    HttpResponse × List ProviderCall :=
  match provider.unsubscribeFromTopic s.tokens s.topic with
  | .error err =>
      (⟨StatusBadGateway,
        [("error", "error found while unsubscribing from topic: " ++ err)]⟩,
       [.unsubscribeFromTopic s.tokens s.topic])
  | .ok response =>
      if response.failureCount ≠ 0 then
        (⟨StatusBadGateway,
          [("errors", "errors while subscribing to topic: " ++ sbString response.errors)]⟩,
         [.unsubscribeFromTopic s.tokens s.topic])
      else
        (⟨StatusAccepted, []⟩, [.unsubscribeFromTopic s.tokens s.topic])

/-- The Go zero value of `PublishInput`, what `var p PublishInput` holds when
`ctx.Bind` fails to decode the body. -/
def zeroPublishInput : PublishInput := ⟨"", ⟨"", ""⟩⟩

/-- The Go zero value of `BroadCastInput`. -/
def zeroBroadCastInput : BroadCastInput := ⟨"", ⟨"", ""⟩⟩

/-- The Go zero value of `SubscribeInput` (`nil` slice modelled as `[]`). -/
def zeroSubscribeInput : SubscribeInput := ⟨[], ""⟩

/-- The outcome of JSON-decoding a request body against the expected
input shape of each handler: `none` means the body does not decode into that
struct (malformed JSON or wrong shape). -/
structure RequestBody where
  publishInput : Option PublishInput
  broadcastInput : Option BroadCastInput
  subscribeInput : Option SubscribeInput
deriving Repr, DecidableEq

/-- The four routed paths (lines 65-68). -/
inductive ReqPath where
  | publish
  | broadcast
  | subscribe
  | unsubscribe
deriving Repr, DecidableEq

/-- An incoming HTTP request: routed path, `Authorization` header value
(`""` when absent, as `c.GetHeader` reports), and body decode outcomes. -/
structure Request where
  path : ReqPath
  authHeader : String
  body : RequestBody
deriving Repr, DecidableEq

/-- Middleware StateMiddleware (lines 72-77): stores the shared state under the key
`"state"` in the key map of the request context. -/
def StateMiddleware (state : AppState) (keys : List (String × AppState)) :
    List (String × AppState) :=
  ("state", state) :: keys

/-- The lookup ctx.Get of key state as performed by every handler (lines 90, 112, 128,
153). -/
def ctxGet (keys : List (String × AppState)) (k : String) : Option AppState :=
  keys.lookup k

/-- Dispatch to the routed handler (lines 65-68) after binding the body.
The handlers call the gin ctx.Bind (lines 81, 105, 126, 151), which is
MustBindWith: on a decode failure it aborts with http.StatusBadRequest and
writes the 400 header to the wire at once, so that status stands whatever
the handler later sets.  The error value returned by Bind is discarded, so
the handler body still runs on the Go zero value of its input: its
provider calls are made and its later body writes are appended to the 400
response, while its status writes are ignored because the header is
already written. -/
def routeHandler (state : AppState) (path : ReqPath) (body : RequestBody) :
    HttpResponse × List ProviderCall :=
  match path with
  | .publish =>
      match body.publishInput with
      | some p => publishDryRun state.msgClient p
      | none =>
          let run := publishDryRun state.msgClient zeroPublishInput
          (⟨StatusBadRequest, run.1.body⟩, run.2)
  | .broadcast =>
      match body.broadcastInput with
      | some b => BroadcastMsg state.msgClient b
      | none =>
          let run := BroadcastMsg state.msgClient zeroBroadCastInput
          (⟨StatusBadRequest, run.1.body⟩, run.2)
  | .subscribe =>
      match body.subscribeInput with
      | some s => SubscribeToTopic state.msgClient s
      | none =>
          let run := SubscribeToTopic state.msgClient zeroSubscribeInput
          (⟨StatusBadRequest, run.1.body⟩, run.2)
  | .unsubscribe =>
      match body.subscribeInput with
      | some s => UnsubscribeFromTopic state.msgClient s
      | none =>
          let run := UnsubscribeFromTopic state.msgClient zeroSubscribeInput
          (⟨StatusBadRequest, run.1.body⟩, run.2)

/-- The full per-request pipeline (lines 62-68): auth middleware, then the
state-injecting middleware, then the routed handler, which retrieves the
state from the context.  The unreachable `none` branch of the context
lookup models the Go panic on a failed type assertion (the gin recovery layer
would answer 500). -/
def handleRequest (getenv : String → String) (state : AppState) (req : Request) :
    HttpResponse × List ProviderCall :=
  match APIKeyAuthMiddleware getenv req.authHeader with
  | some resp => (resp, [])
  | none =>
      let keys := StateMiddleware state []
      match ctxGet keys "state" with
      | some st => routeHandler st req.path req.body
      | none => (⟨500, []⟩, [])

/-- One request of a server run: the state is whatever the step hands to
the next step; main.go never reassigns it, so the step returns it as is. -/
def serverStep (state : AppState) (getenv : String → String) (req : Request) :
    (HttpResponse × List ProviderCall) × AppState :=
  (handleRequest getenv state req, state)

/-- A run of the server over a request sequence, starting at request index
`i`: `envs j` is the environment visible while request `j` is handled
(`os.Getenv` is called inside the middleware, per request). -/
def serverRunFrom (state : AppState) (envs : Nat → String → String) (i : Nat) :
    List Request → List (HttpResponse × List ProviderCall) × AppState
  | [] => ([], state)
  | r :: rs =>
      let step := serverStep state (envs i) r
      let rest := serverRunFrom step.2 envs (i + 1) rs
      (step.1 :: rest.1, rest.2)

/-- A run of the server over a request sequence from startup. -/
def serverRun (state : AppState) (envs : Nat → String → String)
    (reqs : List Request) : List (HttpResponse × List ProviderCall) × AppState :=
  serverRunFrom state envs 0 reqs

/-! ### Helper lemmas (shared across claims) -/

lemma foldl_string_append (l : List String) (s : String) :
    l.foldl (fun a b => a ++ b) s = s ++ String.join l := by
  induction l generalizing s with
  | nil => simp [String.join]
  | cons x xs ih =>
      simp only [List.foldl_cons]
      rw [ih (s ++ x)]
      have hj : String.join (x :: xs) = x ++ String.join xs := by
        have h0 : String.join (x :: xs) = List.foldl (fun a b => a ++ b) ("" ++ x) xs := rfl
        rw [h0, ih ("" ++ x)]
        simp
      rw [hj, String.append_assoc]

lemma foldl_append_fmtEntry (l : List ErrorInfo) (s : String) :
    l.foldl (fun sb e => sb ++ fmtEntry e) s = s ++ String.join (l.map fmtEntry) := by
  have h := List.foldl_map fmtEntry (fun a b => a ++ b) l s
  rw [← h]
  exact foldl_string_append (l.map fmtEntry) s

lemma sbString_eq_join (l : List ErrorInfo) :
    sbString l = String.join (l.map fmtEntry) := by
  have h := foldl_append_fmtEntry l ""
  simpa [sbString] using h

lemma ctxGet_StateMiddleware (state : AppState) (keys : List (String × AppState)) :
    ctxGet (StateMiddleware state keys) "state" = some state := rfl

lemma handleRequest_of_auth_pass (getenv : String → String) (state : AppState)
    (req : Request) (h : APIKeyAuthMiddleware getenv req.authHeader = none) :
    handleRequest getenv state req = routeHandler state req.path req.body := by
  unfold handleRequest
  rw [h]
  rfl

lemma serverRunFrom_state (state : AppState) (envs : Nat → String → String)
    (i : Nat) (reqs : List Request) :
    (serverRunFrom state envs i reqs).2 = state := by
  induction reqs generalizing i with
  | nil => rfl
  | cons r rs ih => simpa [serverRunFrom, serverStep] using ih (i + 1)

lemma serverRunFrom_get (state : AppState) (envs : Nat → String → String)
    (i : Nat) (reqs : List Request) (j : Nat) (r : Request)
    (h : reqs.get? j = some r) :
    (serverRunFrom state envs i reqs).1.get? j =
      some (handleRequest (envs (i + j)) state r) := by
  induction reqs generalizing i j with
  | nil => simp at h
  | cons q rs ih =>
      cases j with
      | zero =>
          simp at h
          subst h
          simp [serverRunFrom, serverStep]
      | succ j =>
          simp only [List.get?_cons_succ] at h
          have := ih (i + 1) j h
          simpa [serverRunFrom, serverStep, Nat.add_assoc, Nat.add_comm 1 j] using this

lemma publishDryRun_status (provider : Provider) (p : PublishInput) :
    (publishDryRun provider p).1.status = StatusAccepted ∨
      (publishDryRun provider p).1.status = StatusBadGateway := by
  unfold publishDryRun
  cases h : provider.send (mkPublishMessage p) <;> simp [h]

lemma BroadcastMsg_status (provider : Provider) (b : BroadCastInput) :
    (BroadcastMsg provider b).1.status = StatusAccepted ∨
      (BroadcastMsg provider b).1.status = StatusBadGateway := by
  unfold BroadcastMsg
  cases h : provider.send (mkBroadcastMessage b) <;> simp [h]

lemma SubscribeToTopic_status (provider : Provider) (s : SubscribeInput) :
    (SubscribeToTopic provider s).1.status = StatusAccepted ∨
      (SubscribeToTopic provider s).1.status = StatusBadGateway := by
  unfold SubscribeToTopic
  cases h : provider.subscribeToTopic s.tokens s.topic with
  | error e => simp
  | ok resp =>
      by_cases hf : resp.failureCount ≠ 0 <;> simp [hf]

lemma UnsubscribeFromTopic_status (provider : Provider) (s : SubscribeInput) :
    (UnsubscribeFromTopic provider s).1.status = StatusAccepted ∨
      (UnsubscribeFromTopic provider s).1.status = StatusBadGateway := by
  unfold UnsubscribeFromTopic
  cases h : provider.unsubscribeFromTopic s.tokens s.topic with
  | error e => simp
  | ok resp =>
      by_cases hf : resp.failureCount ≠ 0 <;> simp [hf]

/-! ### Concrete fixtures, used by the witness theorems -/

/-- An environment where API_KEY is set to secret123 and all other
variables are unset. -/
def envSecret : String → String := fun k => if k = "API_KEY" then "secret123" else ""

/-- An environment where every variable, API_KEY included, is unset. -/
def emptyEnv : String → String := fun _ => ""

/-- A provider for which every call succeeds with no failed entries. -/
def okProvider : Provider :=
  ⟨fun _ => .ok "msg1", fun _ _ => .ok ⟨2, 0, []⟩, fun _ _ => .ok ⟨2, 0, []⟩⟩

/-- A provider whose send calls fail but whose topic batch calls succeed
with no failed entries; it agrees with okProvider on the batch calls. -/
def altProvider : Provider :=
  ⟨fun _ => .error "connection refused", fun _ _ => .ok ⟨2, 0, []⟩,
   fun _ _ => .ok ⟨2, 0, []⟩⟩

/-- A batch response reporting one failed entry at index 1. -/
def partialResp : TopicManagementResponse :=
  ⟨1, 1, [⟨1, "invalid-registration-token"⟩]⟩

/-- A provider whose topic batch calls succeed but report one failed
entry. -/
def partialProvider : Provider :=
  ⟨fun _ => .ok "msg1", fun _ _ => .ok partialResp, fun _ _ => .ok partialResp⟩

/-- A provider for which every call fails with a transport error. -/
def errProvider : Provider :=
  ⟨fun _ => .error "connection refused", fun _ _ => .error "connection refused",
   fun _ _ => .error "connection refused"⟩

/-- A concrete publish input. -/
def samplePublish : PublishInput := ⟨"tok_abc", ⟨"Hi", "There"⟩⟩

/-- A concrete broadcast input. -/
def sampleBroadcast : BroadCastInput := ⟨"news", ⟨"Hi", "There"⟩⟩

/-- A concrete subscribe input. -/
def sampleSub : SubscribeInput := ⟨["t1", "t2"], "news"⟩

/-- A request body that decodes under every expected shape. -/
def sampleBody : RequestBody := ⟨some samplePublish, some sampleBroadcast, some sampleSub⟩

/-- A request body that decodes under no expected shape (malformed JSON). -/
def noneBody : RequestBody := ⟨none, none, none⟩

/-- The app state holding the all-succeeding provider. -/
def okState : AppState := ⟨okProvider⟩

/-- A publish request with the correct bearer token for envSecret. -/
def reqPub : Request := ⟨.publish, "Bearer secret123", sampleBody⟩

/-- A publish request with a wrong bearer token for envSecret. -/
def reqWrongKey : Request := ⟨.publish, "Bearer wrong", sampleBody⟩

/-- A correctly authorized publish request whose body is malformed. -/
def reqMalformed : Request := ⟨.publish, "Bearer secret123", noneBody⟩

/-- A subscribe request whose Authorization header is exactly Bearer
followed by one space: the bearer value is empty. -/
def reqBearerEmpty : Request := ⟨.subscribe, "Bearer ", sampleBody⟩

/-! ### Claim theorems -/

/-- C1: every request whose Authorization header is missing, does not use
the Bearer scheme, or carries a bearer value different from the configured
API_KEY is answered 401 with a one-field JSON error body, and no provider
call is made for it. -/
theorem c1_unauthorized_rejected (getenv : String → String) (state : AppState)
    (req : Request)
    (h : req.authHeader = "" ∨ ¬ (goStartsWith req.authHeader "Bearer ") ∨
         trimBearer req.authHeader ≠ getenv "API_KEY") :
    (handleRequest getenv state req).1.status = StatusUnauthorized ∧
      (∃ msg, (handleRequest getenv state req).1.body = [("error", msg)]) ∧
      (handleRequest getenv state req).2 = [] := by
  have hmid : ∃ msg, APIKeyAuthMiddleware getenv req.authHeader =
      some ⟨StatusUnauthorized, [("error", msg)]⟩ := by
    unfold APIKeyAuthMiddleware
    by_cases h1 : req.authHeader = "" ∨ ¬ (goStartsWith req.authHeader "Bearer ")
    · exact ⟨_, by rw [if_pos h1]⟩
    · push_neg at h1
      have h3 : trimBearer req.authHeader ≠ getenv "API_KEY" := by
        rcases h with h | h | h
        · exact absurd h h1.1
        · exact absurd h1.2 h
        · exact h
      exact ⟨"Unauthorized: Invalid API Key",
        by rw [if_neg (by push_neg; exact h1), if_pos h3]⟩
  obtain ⟨msg, hmid⟩ := hmid
  unfold handleRequest
  rw [hmid]
  exact ⟨rfl, ⟨msg, rfl⟩, rfl⟩

/-- Witness for C1: a publish request with the wrong bearer value under a
configured secret is rejected. -/
theorem c1_unauthorized_rejected_witness :
    (reqWrongKey.authHeader = "" ∨ ¬ (goStartsWith reqWrongKey.authHeader "Bearer ") ∨
       trimBearer reqWrongKey.authHeader ≠ envSecret "API_KEY") ∧
    ((handleRequest envSecret okState reqWrongKey).1.status = StatusUnauthorized ∧
      (∃ msg, (handleRequest envSecret okState reqWrongKey).1.body = [("error", msg)]) ∧
      (handleRequest envSecret okState reqWrongKey).2 = []) :=
  ⟨by decide, c1_unauthorized_rejected envSecret okState reqWrongKey (by decide)⟩

/-- C2: for subscribe and unsubscribe requests whose provider batch call
returns without a transport error, a zero failure count yields 202 with no
body, and a non-zero failure count yields 502 whose errors field is the
label followed by the formatted index and reason of every failed entry, in
the order of the response error list, concatenated with no separator. -/
theorem c2_topic_batch_outcomes (provider : Provider) (s : SubscribeInput)
    (respS respU : TopicManagementResponse)
    (hs : provider.subscribeToTopic s.tokens s.topic = .ok respS)
    (hu : provider.unsubscribeFromTopic s.tokens s.topic = .ok respU) :
    ((respS.failureCount = 0 →
        (SubscribeToTopic provider s).1 = ⟨StatusAccepted, []⟩) ∧
     (respS.failureCount ≠ 0 →
        (SubscribeToTopic provider s).1 =
          ⟨StatusBadGateway,
           [("errors", "errors while subscribing to topic: " ++
              String.join (respS.errors.map fmtEntry))]⟩)) ∧
    ((respU.failureCount = 0 →
        (UnsubscribeFromTopic provider s).1 = ⟨StatusAccepted, []⟩) ∧
     (respU.failureCount ≠ 0 →
        (UnsubscribeFromTopic provider s).1 =
          ⟨StatusBadGateway,
           [("errors", "errors while subscribing to topic: " ++
              String.join (respU.errors.map fmtEntry))]⟩)) := by
  refine ⟨⟨?_, ?_⟩, ⟨?_, ?_⟩⟩ <;> intro hf <;>
    first
    | (unfold SubscribeToTopic; rw [hs]; simp [hf, sbString_eq_join])
    | (unfold UnsubscribeFromTopic; rw [hu]; simp [hf, sbString_eq_join])

/-- Witness for C2: a provider reporting one failed entry at index 1. -/
theorem c2_topic_batch_outcomes_witness :
    partialProvider.subscribeToTopic sampleSub.tokens sampleSub.topic = .ok partialResp ∧
    partialProvider.unsubscribeFromTopic sampleSub.tokens sampleSub.topic = .ok partialResp ∧
    partialResp.failureCount ≠ 0 ∧
    (SubscribeToTopic partialProvider sampleSub).1 =
      ⟨StatusBadGateway,
       [("errors", "errors while subscribing to topic: " ++
          String.join (partialResp.errors.map fmtEntry))]⟩ :=
  ⟨rfl, rfl, by decide,
   ((c2_topic_batch_outcomes partialProvider sampleSub partialResp partialResp
      rfl rfl).1).2 (by decide)⟩

/-- C3 counterexample: the claim as stated says no 400 response is
produced by the decoding step.  At the concrete authorized publish request
whose body does not decode, the pipeline answers status 400: the gin Bind
call aborts with StatusBadRequest and writes that header at once. -/
theorem c3_counterexample :
    APIKeyAuthMiddleware envSecret reqMalformed.authHeader = none ∧
    reqMalformed.path = .publish ∧
    reqMalformed.body.publishInput = none ∧
    (handleRequest envSecret okState reqMalformed).1.status = 400 := by
  decide

/-- C3 as amended: when the auth filter passes and the body does not
decode into the expected input struct, the decode error value is ignored
and the handler still proceeds with the Go zero value of that struct (its
provider calls are made and its body writes land in the response), but the
decoding step does fail the request: the gin Bind call aborts with 400 and
writes the header at once, so the response status is 400, not the status
the handler sets. -/
theorem c3_bind_aborts_400_handler_continues (getenv : String → String)
    (state : AppState) (req : Request)
    (hauth : APIKeyAuthMiddleware getenv req.authHeader = none) :
    (req.path = .publish → req.body.publishInput = none →
       handleRequest getenv state req =
         (⟨StatusBadRequest, (publishDryRun state.msgClient zeroPublishInput).1.body⟩,
          (publishDryRun state.msgClient zeroPublishInput).2)) ∧
    (req.path = .broadcast → req.body.broadcastInput = none →
       handleRequest getenv state req =
         (⟨StatusBadRequest, (BroadcastMsg state.msgClient zeroBroadCastInput).1.body⟩,
          (BroadcastMsg state.msgClient zeroBroadCastInput).2)) ∧
    (req.path = .subscribe → req.body.subscribeInput = none →
       handleRequest getenv state req =
         (⟨StatusBadRequest, (SubscribeToTopic state.msgClient zeroSubscribeInput).1.body⟩,
          (SubscribeToTopic state.msgClient zeroSubscribeInput).2)) ∧
    (req.path = .unsubscribe → req.body.subscribeInput = none →
       handleRequest getenv state req =
         (⟨StatusBadRequest, (UnsubscribeFromTopic state.msgClient zeroSubscribeInput).1.body⟩,
          (UnsubscribeFromTopic state.msgClient zeroSubscribeInput).2)) := by
  rw [handleRequest_of_auth_pass getenv state req hauth]
  refine ⟨?_, ?_, ?_, ?_⟩ <;> intro hp hb <;> simp [routeHandler, hp, hb]

/-- Witness for the amended C3: an authorized publish request with a
malformed body is answered 400, while the zero-value handler run still
issues its provider call. -/
theorem c3_bind_aborts_400_handler_continues_witness :
    APIKeyAuthMiddleware envSecret reqMalformed.authHeader = none ∧
    reqMalformed.path = .publish ∧
    reqMalformed.body.publishInput = none ∧
    handleRequest envSecret okState reqMalformed =
      (⟨StatusBadRequest, (publishDryRun okState.msgClient zeroPublishInput).1.body⟩,
       (publishDryRun okState.msgClient zeroPublishInput).2) := by
  have h := c3_bind_aborts_400_handler_continues envSecret okState reqMalformed
    (by decide)
  exact ⟨by decide, rfl, rfl, h.1 rfl rfl⟩

/-- C4: the publish handler passes to the provider send operation exactly
one message, whose token is the to field of the request and whose
notification title and body are those of the request; the broadcast
handler instead sets the topic field, with the same notification mapping
and the token left at its zero value. -/
theorem c4_message_construction (provider : Provider) (p : PublishInput)
    (b : BroadCastInput) :
    ((mkPublishMessage p).token = p.token ∧
     (mkPublishMessage p).notification.title = p.notification.title ∧
     (mkPublishMessage p).notification.body = p.notification.body ∧
     (mkPublishMessage p).topic = "" ∧
     (publishDryRun provider p).2 = [.send (mkPublishMessage p)]) ∧
    ((mkBroadcastMessage b).topic = b.topic ∧
     (mkBroadcastMessage b).notification.title = b.notification.title ∧
     (mkBroadcastMessage b).notification.body = b.notification.body ∧
     (mkBroadcastMessage b).token = "" ∧
     (BroadcastMsg provider b).2 = [.send (mkBroadcastMessage b)]) := by
  refine ⟨⟨rfl, rfl, rfl, rfl, ?_⟩, ⟨rfl, rfl, rfl, rfl, ?_⟩⟩
  · unfold publishDryRun
    cases h : provider.send (mkPublishMessage p) <;> simp [h]
  · unfold BroadcastMsg
    cases h : provider.send (mkBroadcastMessage b) <;> simp [h]

/-- C5: an authorized publish or broadcast request whose provider send
succeeds is answered 202 Accepted with an empty body. -/
theorem c5_provider_success_202 (getenv : String → String) (state : AppState)
    (req : Request) (p : PublishInput) (b : BroadCastInput) (r r2 : String)
    (hauth : APIKeyAuthMiddleware getenv req.authHeader = none) :
    (req.path = .publish → req.body.publishInput = some p →
       state.msgClient.send (mkPublishMessage p) = .ok r →
       (handleRequest getenv state req).1 = ⟨StatusAccepted, []⟩) ∧
    (req.path = .broadcast → req.body.broadcastInput = some b →
       state.msgClient.send (mkBroadcastMessage b) = .ok r2 →
       (handleRequest getenv state req).1 = ⟨StatusAccepted, []⟩) := by
  rw [handleRequest_of_auth_pass getenv state req hauth]
  constructor
  · intro hp hb hok
    simp [routeHandler, hp, hb, publishDryRun, hok]
  · intro hp hb hok
    simp [routeHandler, hp, hb, BroadcastMsg, hok]

/-- Witness for C5: a correctly authorized publish request against a
provider whose send succeeds. -/
theorem c5_provider_success_202_witness :
    APIKeyAuthMiddleware envSecret reqPub.authHeader = none ∧
    reqPub.path = .publish ∧ reqPub.body.publishInput = some samplePublish ∧
    okState.msgClient.send (mkPublishMessage samplePublish) = .ok "msg1" ∧
    (handleRequest envSecret okState reqPub).1 = ⟨StatusAccepted, []⟩ := by
  have h := c5_provider_success_202 envSecret okState reqPub samplePublish
    sampleBroadcast "msg1" "msg1" (by decide)
  exact ⟨by decide, rfl, rfl, rfl, h.1 rfl rfl rfl⟩

/-- C6: on every endpoint, a provider call that itself returns an error is
answered 502 with a JSON error field ending in the provider error text,
and the handler issues exactly one provider call (no retry). -/
theorem c6_transport_error_502 (provider : Provider) (p : PublishInput)
    (b : BroadCastInput) (s : SubscribeInput) (e1 e2 e3 e4 : String) :
    (provider.send (mkPublishMessage p) = .error e1 →
       (publishDryRun provider p).1 =
         ⟨StatusBadGateway, [("error", "error found while publishing message: " ++ e1)]⟩ ∧
       (publishDryRun provider p).2.length = 1) ∧
    (provider.send (mkBroadcastMessage b) = .error e2 →
       (BroadcastMsg provider b).1 =
         ⟨StatusBadGateway, [("error", "error found while broadcasting message: " ++ e2)]⟩ ∧
       (BroadcastMsg provider b).2.length = 1) ∧
    (provider.subscribeToTopic s.tokens s.topic = .error e3 →
       (SubscribeToTopic provider s).1 =
         ⟨StatusBadGateway, [("error", "error found while subscribing to topic: " ++ e3)]⟩ ∧
       (SubscribeToTopic provider s).2.length = 1) ∧
    (provider.unsubscribeFromTopic s.tokens s.topic = .error e4 →
       (UnsubscribeFromTopic provider s).1 =
         ⟨StatusBadGateway, [("error", "error found while unsubscribing from topic: " ++ e4)]⟩ ∧
       (UnsubscribeFromTopic provider s).2.length = 1) := by
  refine ⟨?_, ?_, ?_, ?_⟩ <;> intro h
  · simp [publishDryRun, h]
  · simp [BroadcastMsg, h]
  · simp [SubscribeToTopic, h]
  · simp [UnsubscribeFromTopic, h]

/-- Witness for C6: a provider whose send call fails with a transport
error. -/
theorem c6_transport_error_502_witness :
    errProvider.send (mkPublishMessage samplePublish) = .error "connection refused" ∧
    ((publishDryRun errProvider samplePublish).1 =
       ⟨StatusBadGateway,
        [("error", "error found while publishing message: " ++ "connection refused")]⟩ ∧
     (publishDryRun errProvider samplePublish).2.length = 1) :=
  ⟨rfl, (c6_transport_error_502 errProvider samplePublish sampleBroadcast sampleSub
    "connection refused" "connection refused" "connection refused" "connection refused").1 rfl⟩

/-- C7: the subscribe outcome is a pure function of the request and of the
provider reply to exactly that token list and topic; in particular, a run
that processes the same request twice against an unchanged environment
produces the same answer twice and leaves the state unchanged. -/
theorem c7_subscribe_idempotent (p q : Provider) (s : SubscribeInput)
    (state : AppState) (getenv : String → String) (req : Request) :
    (p.subscribeToTopic s.tokens s.topic = q.subscribeToTopic s.tokens s.topic →
       SubscribeToTopic p s = SubscribeToTopic q s) ∧
    (serverRun state (fun _ => getenv) [req, req]).1 =
      [handleRequest getenv state req, handleRequest getenv state req] ∧
    (serverRun state (fun _ => getenv) [req, req]).2 = state := by
  refine ⟨?_, rfl, rfl⟩
  intro h
  unfold SubscribeToTopic
  rw [h]

/-- Witness for C7: two providers that agree on the subscribe call for the
sample input classify it identically, and a double run repeats the same
answer. -/
theorem c7_subscribe_idempotent_witness :
    okProvider.subscribeToTopic sampleSub.tokens sampleSub.topic =
      altProvider.subscribeToTopic sampleSub.tokens sampleSub.topic ∧
    SubscribeToTopic okProvider sampleSub = SubscribeToTopic altProvider sampleSub ∧
    (serverRun okState (fun _ => envSecret) [reqPub, reqPub]).1 =
      [handleRequest envSecret okState reqPub, handleRequest envSecret okState reqPub] ∧
    (serverRun okState (fun _ => envSecret) [reqPub, reqPub]).2 = okState := by
  have h := c7_subscribe_idempotent okProvider altProvider sampleSub okState
    envSecret reqPub
  exact ⟨rfl, h.1 rfl, h.2.1, h.2.2⟩

/-- C8: the state is created once and never mutated: a run over any
request sequence ends with the state it started with, the injector stores
exactly that state under the context key, and every request in the run is
handled with the original state. -/
theorem c8_state_immutable (state : AppState) (envs : Nat → String → String)
    (reqs : List Request) (j : Nat) (r : Request)
    (h : reqs.get? j = some r) :
    (serverRun state envs reqs).2 = state ∧
    ctxGet (StateMiddleware state []) "state" = some state ∧
    (serverRun state envs reqs).1.get? j =
      some (handleRequest (envs j) state r) := by
  refine ⟨serverRunFrom_state state envs 0 reqs, rfl, ?_⟩
  have hg := serverRunFrom_get state envs 0 reqs j r h
  simpa [serverRun] using hg

/-- Witness for C8: a one-request run against the sample state. -/
theorem c8_state_immutable_witness :
    ([reqPub].get? 0 = some reqPub) ∧
    ((serverRun okState (fun _ => envSecret) [reqPub]).2 = okState ∧
     ctxGet (StateMiddleware okState []) "state" = some okState ∧
     (serverRun okState (fun _ => envSecret) [reqPub]).1.get? 0 =
       some (handleRequest envSecret okState reqPub)) :=
  ⟨rfl, c8_state_immutable okState (fun _ => envSecret) [reqPub] 0 reqPub rfl⟩

/-- C9: when the unsubscribe batch call succeeds but reports failures, the
502 answer has a one-field errors body whose value begins with the words
errors while subscribing to topic: the unsubscribe handler labels the
operation as subscribing. -/
theorem c9_unsubscribe_mislabel (provider : Provider) (s : SubscribeInput)
    (resp : TopicManagementResponse)
    (h : provider.unsubscribeFromTopic s.tokens s.topic = .ok resp)
    (hf : resp.failureCount ≠ 0) :
    (UnsubscribeFromTopic provider s).1.status = StatusBadGateway ∧
    ∃ rest, (UnsubscribeFromTopic provider s).1.body =
        [("errors", "errors while subscribing to topic" ++ rest)] := by
  unfold UnsubscribeFromTopic
  rw [h]
  refine ⟨by simp [hf], ⟨": " ++ sbString resp.errors, ?_⟩⟩
  simp only [hf, if_pos, ite_true, ne_eq, not_false_iff]
  have hsplit : "errors while subscribing to topic: " ++ sbString resp.errors =
      "errors while subscribing to topic" ++ (": " ++ sbString resp.errors) := by
    rw [← String.append_assoc]
    have hlit : "errors while subscribing to topic: " =
        "errors while subscribing to topic" ++ ": " := by decide
    rw [hlit]
  simp [hf, hsplit]

/-- Witness for C9: the provider reporting one failed unsubscribe entry. -/
theorem c9_unsubscribe_mislabel_witness :
    partialProvider.unsubscribeFromTopic sampleSub.tokens sampleSub.topic =
      .ok partialResp ∧
    partialResp.failureCount ≠ 0 ∧
    ((UnsubscribeFromTopic partialProvider sampleSub).1.status = StatusBadGateway ∧
     ∃ rest, (UnsubscribeFromTopic partialProvider sampleSub).1.body =
         [("errors", "errors while subscribing to topic" ++ rest)]) :=
  ⟨rfl, by decide,
   c9_unsubscribe_mislabel partialProvider sampleSub partialResp rfl (by decide)⟩

/-- C10: when API_KEY is unset or empty at request time, a header of
exactly Bearer followed by one space passes the auth filter and the
request reaches its handler; and the secret is read from the environment
visible at each request, not the one at startup: the answer to the request
at position j of a run uses the environment of position j. -/
theorem c10_empty_key_and_env_reread (getenv : String → String)
    (state : AppState) (req : Request) (envs : Nat → String → String)
    (reqs : List Request) (j : Nat) (r : Request)
    (hkey : getenv "API_KEY" = "")
    (hreq : reqs.get? j = some r) :
    APIKeyAuthMiddleware getenv "Bearer " = none ∧
    (req.authHeader = "Bearer " →
       handleRequest getenv state req = routeHandler state req.path req.body) ∧
    (serverRun state envs reqs).1.get? j =
      some (handleRequest (envs j) state r) := by
  have hpass : APIKeyAuthMiddleware getenv "Bearer " = none := by
    have hne : ¬ (("Bearer " : String) = "" ∨ ¬ (goStartsWith "Bearer " "Bearer ")) := by
      decide
    have htrim : trimBearer "Bearer " = "" := by decide
    unfold APIKeyAuthMiddleware
    rw [if_neg hne, htrim, hkey, if_neg (by simp)]
  refine ⟨hpass, ?_, ?_⟩
  · intro hh
    apply handleRequest_of_auth_pass
    rw [hh]
    exact hpass
  · have hg := serverRunFrom_get state envs 0 reqs j r hreq
    simpa [serverRun] using hg

/-- Witness for C10: the empty environment lets the empty bearer value
through, and a one-request run uses the per-request environment. -/
theorem c10_empty_key_and_env_reread_witness :
    emptyEnv "API_KEY" = "" ∧
    ([reqPub].get? 0 = some reqPub) ∧
    (APIKeyAuthMiddleware emptyEnv "Bearer " = none ∧
     (reqBearerEmpty.authHeader = "Bearer " →
        handleRequest emptyEnv okState reqBearerEmpty =
          routeHandler okState reqBearerEmpty.path reqBearerEmpty.body) ∧
     (serverRun okState (fun _ => emptyEnv) [reqPub]).1.get? 0 =
       some (handleRequest emptyEnv okState reqPub)) :=
  ⟨rfl, rfl,
   c10_empty_key_and_env_reread emptyEnv okState reqBearerEmpty
     (fun _ => emptyEnv) [reqPub] 0 reqPub rfl rfl⟩

end GoFcm
